import Mathlib

/-!
Verification development for the orbital mechanics and data cache engine of
the tests3d repository.

The embedding below is a shallow model of the TypeScript source:

* JavaScript numbers are modelled as real numbers.
* `src/advanced3/utils/orbitalCalculations.ts` is embedded directly:
  `calculateCelestialPosition`, `transformToGeocentricVisualization`,
  `interpolateOrbitalElements` together with the `orbitCorrectionMap` table
  and the `ORBIT_VISUALIZATION_SCALE` constant.
* The JavaScript remainder operator, which truncates toward zero, is
  embedded as `jsMod`.
* `src/advanced3/utils/PlanetDataService.ts` is embedded with calendar days
  modelled as integers: a date string is `Option Int`, where `none` stands
  for a malformed string (a string whose `new Date(...)` parse is `NaN`) and
  `some d` for a valid date lying `d` days from the epoch.  All date
  arithmetic in the source moves in whole days, so day granularity is
  faithful.  JavaScript comparisons with `NaN` dates are false, which the
  boolean comparators below reproduce.  The persistent key-value store is
  modelled by the `ServiceState` record that each operation threads through.
* The animation driver of `src/advanced4/components/CelestialBody.tsx`
  (`AnimationHandler`) is embedded as a pure per-frame transition function
  `animationTick` on a `DriverState` record; instants are real millisecond
  timestamps, and a calendar day lasts `86400000` milliseconds.
-/

/-- Triple of real coordinates, modelling the x, y, z number objects of the
source. -/
@[ext]
structure Vec3 where
  x : ℝ
  y : ℝ
  z : ℝ

/-- Keplerian orbital elements of one body for one calendar day, from the
`PlanetData` interface of the source: semi-major axis `a`, eccentricity `e`,
inclination `i`, longitude of ascending node `om`, argument of periapsis `w`,
mean anomaly at epoch `M0` (all angles in degrees) and orbital period `T` in
days. -/
@[ext]
structure PlanetData where
  a : ℝ
  e : ℝ
  i : ℝ
  om : ℝ
  w : ℝ
  M0 : ℝ
  T : ℝ

/-- Degree to radian conversion, `THREE.MathUtils.degToRad`. -/
noncomputable def degToRad (degrees : ℝ) : ℝ := degrees * (Real.pi / 180)

/-- The fixed-point loop solving the Kepler equation in
`calculateCelestialPosition`.  The fuel argument is the remaining iteration
budget (`maxIterations - iterations`); the loop body runs while the previous
step moved by more than the `1e-6` tolerance, exactly as the `while` loop of
the source. -/
noncomputable def keplerLoop (e M : ℝ) : ℕ → ℝ → ℝ → ℝ
  | 0, E, _ => E
  | fuel + 1, E, prevE =>
    if 1e-6 < |E - prevE| then keplerLoop e M fuel (M + e * Real.sin E) E else E

/-- The eccentric anomaly returned by the solver loop: initial approximation
`E = M`, initial `prevE = E - 1` so that the first check passes, at most 10
iterations. -/
noncomputable def keplerSolveE (e M : ℝ) : ℝ := keplerLoop e M 10 M (M - 1)

/-- The iterate sequence of the same fixed-point iteration
`E ← M + e·sin E` started at `E₀ = M`; `keplerSeq e M k` is the value the
solver loop holds after `k` uninterrupted iterations. -/
noncomputable def keplerSeq (e M : ℝ) : ℕ → ℝ
  | 0 => M
  | k + 1 => M + e * Real.sin (keplerSeq e M k)

/-- Embedding of `calculateCelestialPosition` of
`src/advanced3/utils/orbitalCalculations.ts`: mean anomaly from the orbital
period and elapsed days, Kepler solve, true anomaly and radius, then the
rotation into heliocentric coordinates. -/
noncomputable def calculateCelestialPosition (data : PlanetData)
    (elapsedDays : ℝ) : Vec3 :=
  let n := 2 * Real.pi / data.T
  let M := degToRad data.M0 + n * elapsedDays
  let E := keplerSolveE data.e M
  let f := 2 * Real.arctan (Real.sqrt ((1 + data.e) / (1 - data.e)) * Real.tan (E / 2))
  let r := data.a * (1 - data.e * Real.cos E)
  let cosOM := Real.cos (degToRad data.om)
  let sinOM := Real.sin (degToRad data.om)
  let cosW := Real.cos (degToRad data.w)
  let sinW := Real.sin (degToRad data.w)
  let cosI := Real.cos (degToRad data.i)
  let sinI := Real.sin (degToRad data.i)
  let xPrime := r * (cosW * Real.cos f - sinW * Real.sin f)
  let yPrime := r * (sinW * Real.cos f + cosW * Real.sin f)
  let zPrime := r * Real.sin f * sinI
  ⟨xPrime * cosOM - yPrime * sinOM, xPrime * sinOM + yPrime * cosOM, zPrime * cosI⟩

/-- Visualization scale factor of the source. -/
noncomputable def ORBIT_VISUALIZATION_SCALE : ℝ := 0.00000009

/-- The `orbitCorrectionMap` lookup table of the source, keyed by lower-case
body name; `none` models an absent key. -/
noncomputable def orbitCorrectionMap (key : String) : Option ℝ :=
  if key = "sun" then some 1
  else if key = "mercury" then some 1
  else if key = "venus" then some 1
  else if key = "earth" then some 1
  else if key = "mars" then some 1
  else if key = "jupiter" then some 1.7
  else if key = "saturn" then some 3.2
  else if key = "uranus" then some 4.0
  else if key = "neptune" then some 5
  else none

/-- Name of the reference body in the frame transform. -/
def earthName : String := "Earth"

/-- Name of the central star in the frame transform. -/
def sunName : String := "Sun"

/-- Embedding of `transformToGeocentricVisualization`: Earth maps to the
origin; the Sun is the negated scaled Earth position with the second and
third axes swapped and the vertical coordinate forced to zero; other bodies
are shifted by the Earth position, scaled, divided by the orbit correction
factor (default 1 for unknown keys, mirroring the `|| 1` of the source) and
get their second and third axes swapped. -/
noncomputable def transformToGeocentricVisualization (bodyName : String)
    (position earthPosition : Vec3) : Vec3 :=
  if bodyName = "Earth" then ⟨0, 0, 0⟩
  else if bodyName = "Sun" then
    ⟨-earthPosition.x * ORBIT_VISUALIZATION_SCALE, 0,
      -earthPosition.y * ORBIT_VISUALIZATION_SCALE⟩
  else
    let correctionFactor := (orbitCorrectionMap bodyName.toLower).getD 1
    ⟨(position.x - earthPosition.x) * ORBIT_VISUALIZATION_SCALE / correctionFactor,
      (position.z - earthPosition.z) * ORBIT_VISUALIZATION_SCALE / correctionFactor,
      (position.y - earthPosition.y) * ORBIT_VISUALIZATION_SCALE / correctionFactor⟩

/-- Truncation toward zero, as the JavaScript remainder operator uses. -/
noncomputable def jsTrunc (x : ℝ) : ℤ := if 0 ≤ x then ⌊x⌋ else ⌈x⌉

/-- The JavaScript remainder operator on numbers:
`x % y = x - y * trunc (x / y)`. -/
noncomputable def jsMod (x y : ℝ) : ℝ := x - y * (jsTrunc (x / y) : ℝ)

/-- The inner `interpolateAngle` helper of `interpolateOrbitalElements`:
shortest-arc interpolation with the JavaScript remainder. -/
noncomputable def interpolateAngle (a1 a2 t : ℝ) : ℝ :=
  let diff0 := jsMod (a2 - a1) 360
  let diff1 := if 180 < diff0 then diff0 - 360 else diff0
  let diff2 := if diff1 < -180 then diff1 + 360 else diff1
  jsMod (a1 + diff2 * t) 360

/-- Embedding of `interpolateOrbitalElements`: linear blend of `a`, `e`, `T`
and shortest-arc blend of the four angular fields. -/
noncomputable def interpolateOrbitalElements (startData endData : PlanetData)
    (progress : ℝ) : PlanetData where
  a := startData.a + progress * (endData.a - startData.a)
  e := startData.e + progress * (endData.e - startData.e)
  i := interpolateAngle startData.i endData.i progress
  om := interpolateAngle startData.om endData.om progress
  w := interpolateAngle startData.w endData.w progress
  M0 := interpolateAngle startData.M0 endData.M0 progress
  T := startData.T + progress * (endData.T - startData.T)

/-- A date string, as the data service sees it after `new Date(...)` parsing:
`some d` is a valid date `d` whole days from the epoch, `none` is a malformed
string whose parse is `NaN`. -/
abbrev DateStr := Option ℤ

/-- JavaScript strict less-than on two parsed dates; any comparison with a
`NaN` date is false. -/
def dateLtB : DateStr → DateStr → Bool
  | some a, some b => decide (a < b)
  | _, _ => false

/-- JavaScript greater-or-equal on two parsed dates; any comparison with a
`NaN` date is false. -/
def dateGeB : DateStr → DateStr → Bool
  | some a, some b => decide (b ≤ a)
  | _, _ => false

/-- The inclusive day range `[a, b]`, empty when `b < a`; this is the list
the day-stepping `while (currentDate <= endDate)` loops of the source
produce. -/
def datesFromTo (a b : ℤ) : List ℤ :=
  (List.range (b + 1 - a).toNat).map (fun k : ℕ => a + (k : ℤ))

/-- Embedding of `getDatesBetween`: on a malformed bound the source logs an
error and returns the empty list; otherwise it returns every day from start
to end inclusive (empty when the end precedes the start). -/
def getDatesBetween (startDateStr endDateStr : DateStr) : List ℤ :=
  match startDateStr, endDateStr with
  | some a, some b => datesFromTo a b
  | _, _ => []

/-- One stored day: a list with one nullable slot per tracked body. -/
abbrev Row := List (Option PlanetData)

/-- The `PlanetDataByDate` object: a JavaScript object keyed by date,
modelled as an insertion-ordered association list with unique keys. -/
abbrev Store := List (ℤ × Row)

/-- Property read `obj[key]` on the association-list object. -/
def objGet (st : Store) (d : ℤ) : Option Row :=
  match st with
  | [] => none
  | (k, v) :: rest => if k = d then some v else objGet rest d

/-- Property write `obj[key] = value` on the association-list object:
replaces the value when the key exists, appends otherwise. -/
def objSet : Store → ℤ → Row → Store
  | [], d, r => [(d, r)]
  | (k, v) :: rest, d, r =>
    if k = d then (k, r) :: rest else (k, v) :: objSet rest d r

/-- Identifier of the Sun in the `PLANET_IDS` table. -/
def sunId : String := "10"

/-- Identifier of Mercury in the `PLANET_IDS` table. -/
def mercuryId : String := "199"

/-- Identifier of Venus in the `PLANET_IDS` table. -/
def venusId : String := "299"

/-- Identifier of Earth in the `PLANET_IDS` table. -/
def earthId : String := "399"

/-- Identifier of Mars in the `PLANET_IDS` table. -/
def marsId : String := "499"

/-- Identifier of Jupiter in the `PLANET_IDS` table. -/
def jupiterId : String := "599"

/-- Identifier of Saturn in the `PLANET_IDS` table. -/
def saturnId : String := "699"

/-- Identifier of Uranus in the `PLANET_IDS` table. -/
def uranusId : String := "799"

/-- Identifier of Neptune in the `PLANET_IDS` table. -/
def neptuneId : String := "899"

/-- Display name of Mercury. -/
def mercuryName : String := "Mercury"

/-- Display name of Venus. -/
def venusName : String := "Venus"

/-- Display name of Mars. -/
def marsName : String := "Mars"

/-- Display name of Jupiter. -/
def jupiterName : String := "Jupiter"

/-- Display name of Saturn. -/
def saturnName : String := "Saturn"

/-- Display name of Uranus. -/
def uranusName : String := "Uranus"

/-- Display name of Neptune. -/
def neptuneName : String := "Neptune"

/-- The `PLANET_IDS` table of the data service: JPL Horizons identifier and
display name of the nine tracked bodies, in source order. -/
def PLANET_IDS : List (String × String) :=
  [(sunId, sunName), (mercuryId, mercuryName), (venusId, venusName),
   (earthId, earthName), (marsId, marsName), (jupiterId, jupiterName),
   (saturnId, saturnName), (uranusId, uranusName), (neptuneId, neptuneName)]

/-- The all-zero orbital elements the service synthesizes for the Sun
instead of fetching them. -/
def sunDefaultData : PlanetData := ⟨0, 0, 0, 0, 0, 0, 0⟩

/-- A freshly initialized day row:
`new Array(PLANET_IDS.length).fill(null)`. -/
def emptyRow : Row := List.replicate PLANET_IDS.length none

/-- The combined row-initialize-and-assign step of the store loops:
`if (!existingData[date]) existingData[date] = new Array(9).fill(null);`
followed by `existingData[date][index] = data`. -/
def setSlot (st : Store) (d : ℤ) (index : ℕ) (val : PlanetData) : Store :=
  objSet st d (((objGet st d).getD emptyRow).set index (some val))

/-- The `PlanetDataMeta` record: last cleanup marker and believed coverage
range. -/
structure MetaData where
  lastCleanup : DateStr
  dataRange : Option (DateStr × DateStr)

/-- The persistent state of the data service: the stored `PlanetDataByDate`
object under one storage key and the metadata under the other; `none` means
the key is absent from storage. -/
structure ServiceState where
  data : Option Store
  meta : Option MetaData

/-- The per-planet body of the fetch loop of `fetchAndStoreDataForRange`,
acting on the stored object: the Sun gets synthesized zero elements for every
date of the range; every other body is fetched for the whole range
(a throw, modelled by `none`, is caught and leaves the store untouched; an
empty result is skipped) and each returned day is written at the planet
index. -/
def planetStep (fetch : String → DateStr → DateStr → Option (List (ℤ × PlanetData)))
    (startDateStr endDateStr : DateStr) (dateList : List ℤ)
    (st : Store) (planet : String × String) : Store :=
  if planet.1 = sunId then
    dateList.foldl (fun st2 d =>
      let sunIndex := PLANET_IDS.findIdx (fun p => p.1 == sunId)
      if sunIndex < PLANET_IDS.length then setSlot st2 d sunIndex sunDefaultData
      else st2) st
  else
    match fetch planet.1 startDateStr endDateStr with
    | none => st
    | some planetDataForRange =>
      if planetDataForRange.isEmpty then st
      else
        planetDataForRange.foldl (fun st2 pr =>
          let planetIndex := PLANET_IDS.findIdx (fun p => p.1 == planet.1)
          if planetIndex < PLANET_IDS.length then setSlot st2 pr.1 planetIndex pr.2
          else st2) st

/-- The fetch-attempt bookkeeping of the same loop: every planet except the
Sun causes exactly one `fetchPlanetData` call, whatever the outcome.  The
source interleaves this with the store updates of `planetStep`; the two
accumulations are independent, so the embedding separates them. -/
def attemptStep (attempts : List String) (planet : String × String) : List String :=
  if planet.1 = sunId then attempts else attempts ++ [planet.1]

/-- Embedding of `fetchAndStoreDataForRange`: read the stored object (empty
object when absent), build the date list, run the per-planet loop, save the
merged object, then create or widen the metadata range.  The second
component of the result records, in order, the planet identifiers for which
a fetch was attempted.  The promise resolves normally in every case that
does not involve a storage failure, which the model does not represent, so
the function is total and returns no error. -/
def fetchAndStoreDataForRange
    (fetch : String → DateStr → DateStr → Option (List (ℤ × PlanetData)))
    (state : ServiceState) (startDateStr endDateStr : DateStr) :
    ServiceState × List String :=
  let existingData := state.data.getD []
  let dateList := getDatesBetween startDateStr endDateStr
  let newStore := PLANET_IDS.foldl (planetStep fetch startDateStr endDateStr dateList) existingData
  let attempts := PLANET_IDS.foldl attemptStep []
  let meta0 := state.meta.getD
    { lastCleanup := startDateStr, dataRange := some (startDateStr, startDateStr) }
  let meta1 :=
    match meta0.dataRange with
    | none => { meta0 with dataRange := some (startDateStr, endDateStr) }
    | some r =>
      let newStart := if dateLtB startDateStr r.1 then startDateStr else r.1
      let newEnd := if dateLtB r.2 endDateStr then endDateStr else r.2
      { meta0 with dataRange := some (newStart, newEnd) }
  (⟨some newStore, some meta1⟩, attempts)

/-- Minimum key of a stored object; `Object.keys(...).sort()[0]` of the
source picks the same element because ISO date strings sort
chronologically. -/
def listMinZ (l : List ℤ) : Option ℤ :=
  l.foldl (fun acc k =>
    match acc with
    | none => some k
    | some m => some (min m k)) none

/-- Embedding of `removeDataBeforeDate`: drop every stored day that is not
`>=` the cutoff (a malformed cutoff therefore drops everything, since `NaN`
comparisons are false), save the filtered object, and, when metadata with a
range exists, move the range start to the earliest remaining date, or to the
cutoff when nothing remains. -/
def removeDataBeforeDate (state : ServiceState) (cutoffDateStr : DateStr) :
    ServiceState :=
  match state.data with
  | none => state
  | some allData =>
    let filteredData := allData.filter (fun kv => dateGeB (some kv.1) cutoffDateStr)
    let state1 : ServiceState := { state with data := some filteredData }
    match state1.meta with
    | none => state1
    | some m =>
      match m.dataRange with
      | none => state1
      | some r =>
        let newStart : DateStr :=
          match listMinZ (filteredData.map (fun kv => kv.1)) with
          | some k => some k
          | none => cutoffDateStr
        { state1 with meta := some { m with dataRange := some (newStart, r.2) } }

/-- Embedding of `checkDataAvailability`: false when nothing is stored;
otherwise build the inclusive day list (empty when a bound is malformed or
the end precedes the start, because `NaN` comparisons are false) and require
every day to have a stored row that is an array of exactly nine entries none
of which is null. -/
def checkDataAvailability (state : ServiceState) (startDate endDate : DateStr) :
    Bool :=
  match state.data with
  | none => false
  | some allData =>
    let dateList :=
      match startDate, endDate with
      | some a, some b => datesFromTo a b
      | _, _ => []
    dateList.all (fun d =>
      match objGet allData d with
      | none => false
      | some row => (row.length == 9) && !(row.any (fun slot => slot.isNone)))

/-- Visual configuration of one celestial body, from the
`CelestialBodyConfig` interface. -/
structure CelestialBodyConfig where
  name : String
  color : String
  size : ℝ

/-- Milliseconds in one calendar day. -/
noncomputable def dayMs : ℝ := 86400000

/-- The day-indexed elements table of the animation driver, the
`planetDataByDate` prop: day number to nullable per-body rows. -/
abbrev ElementsTable := ℤ → Option Row

/-- Embedding of `calculateInterpolatedPosition` of the `AnimationHandler`
component: take the calendar day of the exact instant and the following day;
absent data for the first day, or an out-of-range or null slot, yields an
absent result; with data only for the first day the position of that day is
returned unmodified; with both days present the two Kepler positions are
linearly blended by the fractional progress of the instant through the
24-hour window. -/
noncomputable def calculateInterpolatedPosition (table : ElementsTable)
    (planetIndex : ℕ) (exactMs : ℝ) : Option Vec3 :=
  let day : ℤ := ⌊exactMs / dayMs⌋
  let nextDay : ℤ := day + 1
  match table day with
  | none => none
  | some row =>
    match (row[planetIndex]?).join with
    | none => none
    | some currentDayData =>
      let currentPos := calculateCelestialPosition currentDayData 0
      match table nextDay with
      | none => some currentPos
      | some nextRow =>
        match (nextRow[planetIndex]?).join with
        | none => some currentPos
        | some nextDayData =>
          if nextDay = day then some currentPos
          else
            let nextPos := calculateCelestialPosition nextDayData 0
            let startOfDay := (day : ℝ) * dayMs
            let endOfDay := (nextDay : ℝ) * dayMs
            let progress := (exactMs - startOfDay) / (endOfDay - startOfDay)
            some ⟨currentPos.x + (nextPos.x - currentPos.x) * progress,
                  currentPos.y + (nextPos.y - currentPos.y) * progress,
                  currentPos.z + (nextPos.z - currentPos.z) * progress⟩

/-- The props of the `AnimationHandler` component that the frame handler
reads: parsed start and end instants, playback duration in seconds, the
elements table, the tracked bodies, and the readiness flag. -/
structure DriverParams where
  startMs : ℝ
  endMs : ℝ
  animationDuration : ℝ
  planetDataByDate : ElementsTable
  celestialBodies : List CelestialBodyConfig
  readyToAnimate : Bool

/-- The `earthIndex` lookup of the driver; an absent Earth entry yields the
list length, which later row reads turn into absent data, matching the `-1`
of `findIndex` indexing nothing. -/
def earthIndex (p : DriverParams) : ℕ :=
  p.celestialBodies.findIdx (fun body => body.name == earthName)

/-- The reference position the driver resolves first each frame:
`calculateInterpolatedPosition(earthIndex, exactDate)` with the origin as
fallback. -/
noncomputable def earthOriginalPos (p : DriverParams) (exactMs : ℝ) : Vec3 :=
  (calculateInterpolatedPosition p.planetDataByDate (earthIndex p) exactMs).getD ⟨0, 0, 0⟩

/-- The target position the driver computes for one body in its per-frame
loop: the body position (the already resolved reference position for the
reference body itself), with the origin substituted when absent, put through
the frame transform. -/
noncomputable def bodyTargetPos (p : DriverParams) (exactMs : ℝ)
    (earthOriginalPosition : Vec3) (body : CelestialBodyConfig) (index : ℕ) : Vec3 :=
  let planetResult :=
    if index = earthIndex p then some earthOriginalPosition
    else calculateInterpolatedPosition p.planetDataByDate index exactMs
  transformToGeocentricVisualization body.name (planetResult.getD ⟨0, 0, 0⟩)
    earthOriginalPosition

/-- The target the driver would compute for one body at the exact end
instant, spring smoothing bypassed. -/
noncomputable def endDateTargetPos (p : DriverParams) (body : CelestialBodyConfig)
    (index : ℕ) : Vec3 :=
  bodyTargetPos p p.endMs (earthOriginalPos p p.endMs) body index

/-- The per-body spring cache entry of the driver: most recent target,
current smoothed position, current velocity. -/
structure SpringState where
  target : Vec3
  current : Vec3
  velocity : Vec3

/-- The spring-damper update of the driver loop: size-dependent speed
factor, extra stiffness for the Sun, damped velocity integration, then a
position step by the new velocity. -/
noncomputable def springUpdate (body : CelestialBodyConfig) (deltaTime : ℝ)
    (cached : SpringState) : SpringState :=
  let bodySize := body.size
  let speedFactor := min 0.8 (0.2 + bodySize * 0.15)
  let stiffness := 2.8 + (if body.name = "Sun" then 1.0 else 0)
  let damping := 0.8 - bodySize * 0.02
  let springForceX := (cached.target.x - cached.current.x) * stiffness
  let springForceY := (cached.target.y - cached.current.y) * stiffness
  let springForceZ := (cached.target.z - cached.current.z) * stiffness
  let vx := cached.velocity.x * damping + springForceX * deltaTime * speedFactor
  let vy := cached.velocity.y * damping + springForceY * deltaTime * speedFactor
  let vz := cached.velocity.z * damping + springForceZ * deltaTime * speedFactor
  ⟨cached.target,
   ⟨cached.current.x + vx, cached.current.y + vy, cached.current.z + vz⟩,
   ⟨vx, vy, vz⟩⟩

/-- One step of the `celestialBodies.forEach` loop of the driver: compute
the target, initialize or retarget the cache entry for the body, run the
spring update, and record the smoothed position. -/
noncomputable def processBody (p : DriverParams) (deltaTime exactMs : ℝ)
    (earthOriginalPosition : Vec3)
    (acc : (String → Option SpringState) × (String → Option Vec3))
    (indexedBody : ℕ × CelestialBodyConfig) :
    (String → Option SpringState) × (String → Option Vec3) :=
  let index := indexedBody.1
  let body := indexedBody.2
  let newTargetPos := bodyTargetPos p exactMs earthOriginalPosition body index
  let cached0 :=
    match acc.1 body.name with
    | none => (⟨newTargetPos, newTargetPos, ⟨0, 0, 0⟩⟩ : SpringState)
    | some c => { c with target := newTargetPos }
  let cached1 := springUpdate body deltaTime cached0
  (fun n => if n = body.name then some cached1 else acc.1 n,
   fun n => if n = body.name then some cached1.current else acc.2 n)

/-- The mutable state of one `AnimationHandler` playback session that the
frame handler touches: the started flag and accumulated milliseconds, the
throttled display date and the per-frame date, the throttle timestamp, the
frame counter, the displayed positions, the spring cache, and the running
and complete flags. -/
structure DriverState where
  hasStarted : Bool
  accumulatedMs : ℝ
  currentDate : ℝ
  currentDateRef : ℝ
  lastDateUpdate : ℝ
  frameCount : ℕ
  positions : String → Option Vec3
  cache : String → Option SpringState
  isAnimationActive : Bool
  isAnimationComplete : Bool

/-- Embedding of the `useFrame` body of `AnimationHandler`.  `delta` is the
frame delta in seconds, `now` the wall clock used by the 10 Hz date
throttle.  Early exit when not ready or the span is empty; while running,
accumulate the capped delta, map it onto the calendar span, finish when the
mapped time reaches the span (exact end date, positions kept as they are,
running flag off, complete flag on); otherwise resolve the reference body,
run the per-body loop and publish the smoothed positions.  The completed
branch only re-emits positions and changes nothing.  The source repeats the
boundary check a second time after the throttled date update; that repeat is
unreachable, because the first check already returned, and is omitted
here. -/
noncomputable def animationTick (p : DriverParams) (delta now : ℝ)
    (s : DriverState) : DriverState :=
  let totalMs := p.endMs - p.startMs
  if p.readyToAnimate = false ∨ totalMs ≤ 0 then s
  else
    let deltaTime := min delta 0.1
    if s.isAnimationActive then
      let acc0 := if s.hasStarted then s.accumulatedMs else 0
      let accumulated := acc0 + deltaTime * 1000
      let elapsedFactor := accumulated / (p.animationDuration * 1000)
      let elapsedMs := min (elapsedFactor * totalMs) totalMs
      if totalMs ≤ elapsedMs then
        { s with hasStarted := true, accumulatedMs := accumulated,
                 currentDate := p.endMs, currentDateRef := p.endMs,
                 isAnimationActive := false, isAnimationComplete := true }
      else
        let exactMs := p.startMs + elapsedMs
        let throttle := 100 < now - s.lastDateUpdate
        let earthPosition := earthOriginalPos p exactMs
        let looped := (p.celestialBodies.enum).foldl
          (processBody p deltaTime exactMs earthPosition) (s.cache, fun _ => none)
        { s with hasStarted := true, accumulatedMs := accumulated,
                 currentDateRef := exactMs,
                 currentDate := if throttle then exactMs else s.currentDate,
                 lastDateUpdate := if throttle then now else s.lastDateUpdate,
                 cache := looped.1, positions := looped.2,
                 frameCount := s.frameCount + 1 }
    else s

/-- Mean anomaly of the slow-convergence scenario for the Kepler iteration:
a point slightly below pi, where the iteration map has slope close to the
full eccentricity. -/
noncomputable def keplerBadM : ℝ := Real.pi - 1 / 10

/-- Distance from pi of the Kepler iterates in the slow-convergence scenario
with eccentricity `9/10` and mean anomaly `keplerBadM`. -/
noncomputable def keplerBadU (k : ℕ) : ℝ :=
  Real.pi - keplerSeq (9 / 10) keplerBadM k

/-- The solver loop is the identity on the initial approximation when the
eccentricity is zero: the first pass moves nowhere, so the second check
stops the loop. -/
lemma keplerSolveE_zero (M : ℝ) : keplerSolveE 0 M = M := by
  rw [keplerSolveE, show (10 : ℕ) = 9 + 1 from rfl, keplerLoop]
  rw [if_pos (by rw [show M - (M - 1) = (1 : ℝ) from by ring]; norm_num)]
  rw [show M + 0 * Real.sin M = M from by ring]
  rw [show (9 : ℕ) = 8 + 1 from rfl, keplerLoop]
  rw [if_neg (by norm_num)]

/-- C9.  For elements `a = 1`, `e = 0`, all angles zero and `T = 365.25`,
the Kepler solver at zero elapsed days returns exactly the heliocentric
position `(1, 0, 0)`. -/
theorem circularOrbitUnitPosition :
    calculateCelestialPosition ⟨1, 0, 0, 0, 0, 0, 365.25⟩ 0 = ⟨1, 0, 0⟩ := by
  simp only [calculateCelestialPosition]
  norm_num [degToRad, keplerSolveE_zero, Real.sqrt_one, Real.tan_zero,
    Real.arctan_zero, Real.sin_zero, Real.cos_zero]

/-- C7.  The reference body always maps to the origin in the visualization
frame, whatever positions are supplied. -/
theorem earthAlwaysAtOrigin (position earthPosition : Vec3) :
    transformToGeocentricVisualization earthName position earthPosition = ⟨0, 0, 0⟩ := by
  simp [transformToGeocentricVisualization, earthName]

/-- C8.  The central star maps to the negated, scaled reference position
with the two non-vertical axes swapped and the vertical coordinate forced to
zero. -/
theorem sunOppositeEarthScaled (position earthPosition : Vec3) :
    transformToGeocentricVisualization sunName position earthPosition =
      ⟨-earthPosition.x * ORBIT_VISUALIZATION_SCALE, 0,
        -earthPosition.y * ORBIT_VISUALIZATION_SCALE⟩ := by
  simp [transformToGeocentricVisualization, sunName, earthName]

/-- C10.  For the reference body and for the central star the frame
transform ignores the position argument of the body itself: any two inputs
give equal outputs, so the displayed star position is well defined no matter
what the solver produced for the star. -/
theorem transformIndependentOfOwnPosition (p1 p2 earthPosition : Vec3) :
    transformToGeocentricVisualization earthName p1 earthPosition =
      transformToGeocentricVisualization earthName p2 earthPosition ∧
    transformToGeocentricVisualization sunName p1 earthPosition =
      transformToGeocentricVisualization sunName p2 earthPosition := by
  constructor <;> simp [transformToGeocentricVisualization, earthName, sunName]

/-- The JavaScript remainder of zero by anything is zero. -/
lemma jsMod_zero (y : ℝ) : jsMod 0 y = 0 := by
  simp [jsMod, jsTrunc]

/-- Blending an angle with itself returns it unchanged exactly when the
angle already lies in the canonical interval `[0, 360)`. -/
lemma interpolateAngle_self (a t : ℝ) (h0 : 0 ≤ a) (h1 : a < 360) :
    interpolateAngle a a t = a := by
  unfold interpolateAngle
  simp only [sub_self, jsMod_zero]
  rw [if_neg (by norm_num), if_neg (by norm_num)]
  rw [show a + 0 * t = a from by ring]
  have htr : jsTrunc (a / 360) = 0 := by
    rw [jsTrunc, if_pos (by positivity), Int.floor_eq_zero_iff]
    exact ⟨by positivity, (div_lt_one (by norm_num)).mpr h1⟩
  rw [jsMod, htr]
  norm_num

/-- C5 counterexample.  Blending the element set with `M0 = 370` degrees
with itself does not return it: the angular blend reduces the mean anomaly
modulo 360 to 10 degrees, so the claimed identity fails for angles outside
`[0, 360)`. -/
theorem blendIdentityClaimFalse :
    interpolateOrbitalElements ⟨1, 0, 0, 0, 0, 370, 1⟩ ⟨1, 0, 0, 0, 0, 370, 1⟩ 0 ≠
      ⟨1, 0, 0, 0, 0, 370, 1⟩ := by
  intro h
  have hM := congrArg PlanetData.M0 h
  simp only [interpolateOrbitalElements] at hM
  have hval : interpolateAngle 370 370 0 = 10 := by
    unfold interpolateAngle
    simp only [sub_self, jsMod_zero]
    rw [if_neg (by norm_num), if_neg (by norm_num)]
    rw [show (370 : ℝ) + 0 * 0 = 370 from by ring]
    have htr : jsTrunc ((370 : ℝ) / 360) = 1 := by
      rw [jsTrunc, if_pos (by positivity), Int.floor_eq_iff]
      constructor <;> norm_num
    rw [jsMod, htr]
    norm_num
  rw [hval] at hM
  norm_num at hM

/-- C5 amended.  Blending an element set with itself is the identity
whenever every angular field lies in `[0, 360)`; the linear fields are
always preserved. -/
theorem blendIdentityInRange (X : PlanetData) (t : ℝ)
    (hi0 : 0 ≤ X.i) (hi1 : X.i < 360) (hom0 : 0 ≤ X.om) (hom1 : X.om < 360)
    (hw0 : 0 ≤ X.w) (hw1 : X.w < 360) (hM00 : 0 ≤ X.M0) (hM01 : X.M0 < 360) :
    interpolateOrbitalElements X X t = X := by
  apply PlanetData.ext
  · simp only [interpolateOrbitalElements]; ring
  · simp only [interpolateOrbitalElements]; ring
  · simp only [interpolateOrbitalElements]; exact interpolateAngle_self X.i t hi0 hi1
  · simp only [interpolateOrbitalElements]; exact interpolateAngle_self X.om t hom0 hom1
  · simp only [interpolateOrbitalElements]; exact interpolateAngle_self X.w t hw0 hw1
  · simp only [interpolateOrbitalElements]; exact interpolateAngle_self X.M0 t hM00 hM01
  · simp only [interpolateOrbitalElements]; ring

/-- C5 amended witness at a concrete element set with angles inside
`[0, 360)`. -/
theorem blendIdentityInRangeWitness :
    interpolateOrbitalElements ⟨1, 0, 10, 20, 30, 40, 365⟩ ⟨1, 0, 10, 20, 30, 40, 365⟩
      (1 / 2) = ⟨1, 0, 10, 20, 30, 40, 365⟩ :=
  blendIdentityInRange ⟨1, 0, 10, 20, 30, 40, 365⟩ (1 / 2) (by norm_num) (by norm_num)
    (by norm_num) (by norm_num) (by norm_num) (by norm_num) (by norm_num) (by norm_num)

/-- C2 counterexample.  Calling the range fetch with a malformed start date
on an empty store, with a provider that throws on every call, still attempts
fetches: the attempt list is not empty, so the operation is not rejected
before a fetch attempt, and the model, like the source promise, resolves
without any validation failure. -/
theorem invalidRangeRejectionClaimFalse :
    (fetchAndStoreDataForRange (fun _ _ _ => none) ⟨none, none⟩ none (some 0)).2 ≠ [] := by
  decide

/-- C2 amended.  For an invalid range, whether a malformed bound or an end
before the start, the generated date list is empty, so no per-date entry is
synthesized; but the range fetch still attempts one provider call per
non-Sun planet, in table order, and completes without surfacing any
validation failure. -/
theorem invalidRangeStillAttemptsFetches
    (fetch : String → DateStr → DateStr → Option (List (ℤ × PlanetData)))
    (state : ServiceState) (startDateStr endDateStr : DateStr)
    (hinv : startDateStr = none ∨ endDateStr = none ∨
      ∃ a b, startDateStr = some a ∧ endDateStr = some b ∧ b < a) :
    getDatesBetween startDateStr endDateStr = [] ∧
    (fetchAndStoreDataForRange fetch state startDateStr endDateStr).2 =
      [mercuryId, venusId, earthId, marsId, jupiterId, saturnId, uranusId, neptuneId] := by
  constructor
  · rcases hinv with h | h | ⟨a, b, hs, he, hba⟩
    · subst h; cases endDateStr <;> rfl
    · subst h; cases startDateStr <;> rfl
    · subst hs; subst he
      have hlen : (b + 1 - a).toNat = 0 := by omega
      simp [getDatesBetween, datesFromTo, hlen]
  · show PLANET_IDS.foldl attemptStep [] = _
    decide

/-- C2 amended witness at an explicit malformed start date. -/
theorem invalidRangeStillAttemptsFetchesWitness :
    getDatesBetween none (some 0) = [] ∧
    (fetchAndStoreDataForRange (fun _ _ _ => none) ⟨none, none⟩ none (some 0)).2 =
      [mercuryId, venusId, earthId, marsId, jupiterId, saturnId, uranusId, neptuneId] :=
  invalidRangeStillAttemptsFetches (fun _ _ _ => none) ⟨none, none⟩ none (some 0)
    (Or.inl rfl)

/-- Membership in the inclusive day range. -/
lemma mem_datesFromTo (a b x : ℤ) : x ∈ datesFromTo a b ↔ a ≤ x ∧ x ≤ b := by
  simp only [datesFromTo, List.mem_map, List.mem_range]
  constructor
  · rintro ⟨k, hk, rfl⟩; omega
  · rintro ⟨h1, h2⟩; exact ⟨(x - a).toNat, by omega, by omega⟩

/-- The inclusive day range has no duplicate days. -/
lemma nodup_datesFromTo (a b : ℤ) : (datesFromTo a b).Nodup := by
  have hinj : Function.Injective (fun k : ℕ => a + (k : ℤ)) := by
    intro i j h
    simp only at h
    omega
  exact (List.nodup_range _).map hinj

/-- A nonempty day range. -/
lemma datesFromTo_ne_nil {a b : ℤ} (h : a ≤ b) : datesFromTo a b ≠ [] := by
  intro hnil
  have hmem := (mem_datesFromTo a b a).mpr ⟨le_refl a, h⟩
  rw [hnil] at hmem
  exact absurd hmem (List.not_mem_nil a)

/-- Reading the key just written. -/
lemma objGet_objSet_self (d : ℤ) (r : Row) : ∀ st : Store, objGet (objSet st d r) d = some r := by
  intro st
  induction st with
  | nil =>
    show objGet [(d, r)] d = some r
    simp [objGet]
  | cons kv rest ih =>
    obtain ⟨k, v⟩ := kv
    show objGet (if k = d then (k, r) :: rest else (k, v) :: objSet rest d r) d = some r
    by_cases hk : k = d
    · rw [if_pos hk]
      show (if k = d then some r else objGet rest d) = some r
      rw [if_pos hk]
    · rw [if_neg hk]
      show (if k = d then some v else objGet (objSet rest d r) d) = some r
      rw [if_neg hk]
      exact ih

/-- Reading a different key than the one written. -/
lemma objGet_objSet_ne {x d : ℤ} (h : x ≠ d) (r : Row) :
    ∀ st : Store, objGet (objSet st d r) x = objGet st x := by
  intro st
  induction st with
  | nil =>
    show (if d = x then some r else none) = none
    rw [if_neg (fun he => h he.symm)]
  | cons kv rest ih =>
    obtain ⟨k, v⟩ := kv
    show objGet (if k = d then (k, r) :: rest else (k, v) :: objSet rest d r) x = _
    by_cases hk : k = d
    · subst hk
      rw [if_pos rfl]
      show (if k = x then some r else objGet rest x) = (if k = x then some v else objGet rest x)
      rw [if_neg (fun he => h he.symm), if_neg (fun he => h he.symm)]
    · rw [if_neg hk]
      show (if k = x then some v else objGet (objSet rest d r) x) =
        (if k = x then some v else objGet rest x)
      by_cases hkx : k = x
      · rw [if_pos hkx, if_pos hkx]
      · rw [if_neg hkx, if_neg hkx]
        exact ih

/-- Reading the day just assigned through `setSlot`. -/
lemma objGet_setSlot_self (st : Store) (d : ℤ) (j : ℕ) (v : PlanetData) :
    objGet (setSlot st d j v) d = some (((objGet st d).getD emptyRow).set j (some v)) := by
  unfold setSlot
  exact objGet_objSet_self d _ st

/-- Reading another day than the one assigned through `setSlot`. -/
lemma objGet_setSlot_ne {x d : ℤ} (h : x ≠ d) (st : Store) (j : ℕ) (v : PlanetData) :
    objGet (setSlot st d j v) x = objGet st x := by
  unfold setSlot
  exact objGet_objSet_ne h _ st

/-- Effect on reads of folding a per-day slot assignment over a duplicate-free
day list: a day in the list gets its previous row (a fresh row when absent)
with the slot overwritten; any other day is untouched. -/
lemma objGet_foldl_setSlot (j : ℕ) (v : ℤ → PlanetData) :
    ∀ dates : List ℤ, dates.Nodup → ∀ (st : Store) (x : ℤ),
      objGet (dates.foldl (fun s d => setSlot s d j (v d)) st) x =
        if x ∈ dates then some (((objGet st x).getD emptyRow).set j (some (v x)))
        else objGet st x := by
  intro dates
  induction dates with
  | nil => intro _ st x; simp
  | cons d rest ih =>
    intro hnd st x
    have hdnr : d ∉ rest := (List.nodup_cons.mp hnd).1
    have hr : rest.Nodup := (List.nodup_cons.mp hnd).2
    simp only [List.foldl_cons]
    rw [ih hr]
    by_cases hx : x ∈ rest
    · have hxd : x ≠ d := fun h => hdnr (h ▸ hx)
      rw [if_pos hx, objGet_setSlot_ne hxd, if_pos (List.mem_cons.mpr (Or.inr hx))]
    · rw [if_neg hx]
      by_cases hxd : x = d
      · subst hxd
        rw [objGet_setSlot_self, if_pos (List.mem_cons_self x rest)]
      · rw [objGet_setSlot_ne hxd, if_neg (by simp [hxd, hx])]

/-- Reading a filtered object: a key passing the predicate reads as before,
any other key is gone. -/
lemma objGet_filter (q : ℤ → Bool) : ∀ (st : Store) (x : ℤ),
    objGet (st.filter (fun kv => q kv.1)) x = if q x then objGet st x else none := by
  intro st
  induction st with
  | nil => intro x; simp [objGet]
  | cons kv rest ih =>
    obtain ⟨k, v⟩ := kv
    intro x
    by_cases hq : q k
    · rw [List.filter_cons_of_pos (by simpa using hq)]
      by_cases hkx : k = x
      · subst hkx; simp [objGet, hq]
      · simp [objGet, hkx, ih]
    · rw [List.filter_cons_of_neg (by simpa using hq)]
      by_cases hkx : k = x
      · subst hkx; rw [ih]; simp [objGet, hq]
      · rw [ih]; simp [objGet, hkx]

/-- The Sun step of the fetch loop writes the synthesized zero elements at
slot 0 for every date of the range. -/
lemma planetStep_sun (fetch : String → DateStr → DateStr → Option (List (ℤ × PlanetData)))
    (s e : DateStr) (dateList : List ℤ) (st : Store) :
    planetStep fetch s e dateList st (sunId, sunName) =
      dateList.foldl (fun st2 d => setSlot st2 d 0 sunDefaultData) st := by
  unfold planetStep
  rw [if_pos rfl]
  have h1 : PLANET_IDS.findIdx (fun p => p.1 == sunId) = 0 := by decide
  have h2 : PLANET_IDS.length = 9 := rfl
  simp only [h1, h2]
  norm_num

/-- A non-Sun step of the fetch loop with a successful nonempty fetch writes
each returned day at the planet slot. -/
lemma planetStep_fetch (fetch : String → DateStr → DateStr → Option (List (ℤ × PlanetData)))
    (s e : DateStr) (dateList : List ℤ) (st : Store) (p : String × String)
    (j : ℕ) (lst : List (ℤ × PlanetData))
    (hp : ¬ p.1 = sunId)
    (hj : PLANET_IDS.findIdx (fun q => q.1 == p.1) = j)
    (hjlt : j < PLANET_IDS.length)
    (hf : fetch p.1 s e = some lst) (hne : lst ≠ []) :
    planetStep fetch s e dateList st p =
      lst.foldl (fun st2 pr => setSlot st2 pr.1 j pr.2) st := by
  unfold planetStep
  rw [if_neg hp, hf]
  have hemp : lst.isEmpty = false := by
    cases lst with
    | nil => exact absurd rfl hne
    | cons a l => rfl
  simp only [hemp, hj]
  simp [hjlt]

/-- Reads on the store produced by the whole fetch loop, started from the
empty store, with every non-Sun fetch succeeding on exactly the requested
range: every day of the range carries a complete nine-slot row, any other
day is absent. -/
lemma fetchLoop_objGet (d1 d3 : ℤ) (h13 : d1 ≤ d3)
    (fetch : String → DateStr → DateStr → Option (List (ℤ × PlanetData)))
    (pd : String → ℤ → PlanetData)
    (hfetch : ∀ p ∈ PLANET_IDS, p.1 ≠ sunId →
      fetch p.1 (some d1) (some d3) =
        some ((datesFromTo d1 d3).map (fun d => (d, pd p.1 d))))
    (x : ℤ) :
    objGet (PLANET_IDS.foldl
      (planetStep fetch (some d1) (some d3) (datesFromTo d1 d3)) []) x =
      if x ∈ datesFromTo d1 d3 then
        some [some sunDefaultData, some (pd mercuryId x), some (pd venusId x),
              some (pd earthId x), some (pd marsId x), some (pd jupiterId x),
              some (pd saturnId x), some (pd uranusId x), some (pd neptuneId x)]
      else none := by
  have hnd := nodup_datesFromTo d1 d3
  have hnn : datesFromTo d1 d3 ≠ [] := datesFromTo_ne_nil h13
  have hmapnn : ∀ id : String, (datesFromTo d1 d3).map (fun d => (d, pd id d)) ≠ [] := by
    intro id h
    exact hnn (List.map_eq_nil_iff.mp h)
  have hmer := hfetch (mercuryId, mercuryName) (by simp [PLANET_IDS]) (by decide)
  have hven := hfetch (venusId, venusName) (by simp [PLANET_IDS]) (by decide)
  have hear := hfetch (earthId, earthName) (by simp [PLANET_IDS]) (by decide)
  have hmar := hfetch (marsId, marsName) (by simp [PLANET_IDS]) (by decide)
  have hjup := hfetch (jupiterId, jupiterName) (by simp [PLANET_IDS]) (by decide)
  have hsat := hfetch (saturnId, saturnName) (by simp [PLANET_IDS]) (by decide)
  have hura := hfetch (uranusId, uranusName) (by simp [PLANET_IDS]) (by decide)
  have hnep := hfetch (neptuneId, neptuneName) (by simp [PLANET_IDS]) (by decide)
  simp only [PLANET_IDS, List.foldl_cons, List.foldl_nil]
  rw [planetStep_sun]
  rw [planetStep_fetch _ _ _ _ _ _ 1 _ (by decide) (by decide) (by decide) hmer
    (hmapnn mercuryId)]
  rw [planetStep_fetch _ _ _ _ _ _ 2 _ (by decide) (by decide) (by decide) hven
    (hmapnn venusId)]
  rw [planetStep_fetch _ _ _ _ _ _ 3 _ (by decide) (by decide) (by decide) hear
    (hmapnn earthId)]
  rw [planetStep_fetch _ _ _ _ _ _ 4 _ (by decide) (by decide) (by decide) hmar
    (hmapnn marsId)]
  rw [planetStep_fetch _ _ _ _ _ _ 5 _ (by decide) (by decide) (by decide) hjup
    (hmapnn jupiterId)]
  rw [planetStep_fetch _ _ _ _ _ _ 6 _ (by decide) (by decide) (by decide) hsat
    (hmapnn saturnId)]
  rw [planetStep_fetch _ _ _ _ _ _ 7 _ (by decide) (by decide) (by decide) hura
    (hmapnn uranusId)]
  rw [planetStep_fetch _ _ _ _ _ _ 8 _ (by decide) (by decide) (by decide) hnep
    (hmapnn neptuneId)]
  simp only [List.foldl_map]
  have hL : ∀ (j : ℕ) (v : ℤ → PlanetData) (st : Store),
      objGet ((datesFromTo d1 d3).foldl (fun s d => setSlot s d j (v d)) st) x =
        if x ∈ datesFromTo d1 d3 then
          some (((objGet st x).getD emptyRow).set j (some (v x)))
        else objGet st x :=
    fun j v st => objGet_foldl_setSlot j v _ hnd st x
  by_cases hx : x ∈ datesFromTo d1 d3
  · simp only [hL, if_pos hx, Option.getD_some]
    rfl
  · simp only [hL, if_neg hx]
    rfl

/-- Availability over a valid range, rewritten through the stored table. -/
lemma checkDataAvailability_some (s : ServiceState) (store : Store)
    (h : s.data = some store) (a b : ℤ) :
    checkDataAvailability s (some a) (some b) =
      (datesFromTo a b).all (fun d =>
        match objGet store d with
        | none => false
        | some row => (row.length == 9) && !(row.any (fun slot => slot.isNone))) := by
  unfold checkDataAvailability
  rw [h]

/-- C4.  Starting from an empty store: fetch the range `[d1, d3]` with every
per-body fetch succeeding on every date of the range, then prune everything
before `d2`, with `d1 < d2 < d3`.  Availability then holds on `[d2, d3]` and
fails on `[d1, d2]`. -/
theorem prunedAvailabilitySplit (d1 d2 d3 : ℤ) (h12 : d1 < d2) (h23 : d2 < d3)
    (fetch : String → DateStr → DateStr → Option (List (ℤ × PlanetData)))
    (pd : String → ℤ → PlanetData)
    (hfetch : ∀ p ∈ PLANET_IDS, p.1 ≠ sunId →
      fetch p.1 (some d1) (some d3) =
        some ((datesFromTo d1 d3).map (fun d => (d, pd p.1 d)))) :
    checkDataAvailability
      (removeDataBeforeDate
        (fetchAndStoreDataForRange fetch ⟨none, none⟩ (some d1) (some d3)).1
        (some d2)) (some d2) (some d3) = true ∧
    checkDataAvailability
      (removeDataBeforeDate
        (fetchAndStoreDataForRange fetch ⟨none, none⟩ (some d1) (some d3)).1
        (some d2)) (some d1) (some d2) = false := by
  have hget1 := fetchLoop_objGet d1 d3 (by omega) fetch pd hfetch
  have hdata2 : (removeDataBeforeDate
      (fetchAndStoreDataForRange fetch ⟨none, none⟩ (some d1) (some d3)).1
      (some d2)).data =
      some ((PLANET_IDS.foldl
        (planetStep fetch (some d1) (some d3) (datesFromTo d1 d3)) []).filter
          (fun kv => dateGeB (some kv.1) (some d2))) := rfl
  have hget2 := objGet_filter (fun k => dateGeB (some k) (some d2))
    (PLANET_IDS.foldl (planetStep fetch (some d1) (some d3) (datesFromTo d1 d3)) [])
  constructor
  · rw [checkDataAvailability_some _ _ hdata2, List.all_eq_true]
    intro d hd
    obtain ⟨hd2, hd3⟩ := (mem_datesFromTo d2 d3 d).mp hd
    have hgeb : dateGeB (some d) (some d2) = true := by
      simp only [dateGeB, decide_eq_true_eq]
      omega
    have hmem13 : d ∈ datesFromTo d1 d3 := (mem_datesFromTo d1 d3 d).mpr ⟨by omega, hd3⟩
    simp only [hget2, hgeb, if_true, hget1, if_pos hmem13]
    simp
  · rw [checkDataAvailability_some _ _ hdata2]
    by_contra hcontra
    rw [Bool.not_eq_false, List.all_eq_true] at hcontra
    have hd1mem : d1 ∈ datesFromTo d1 d2 :=
      (mem_datesFromTo d1 d2 d1).mpr ⟨le_refl d1, by omega⟩
    have hbad := hcontra d1 hd1mem
    have hgeb : dateGeB (some d1) (some d2) = false := by
      simp only [dateGeB, decide_eq_false_iff_not]
      omega
    simp only [hget2, hgeb, if_false] at hbad
    exact absurd hbad (by simp)

/-- C4 witness at the explicit range `0 < 1 < 2` with a provider returning
the same elements for every body and day. -/
theorem prunedAvailabilitySplitWitness :
    checkDataAvailability
      (removeDataBeforeDate
        (fetchAndStoreDataForRange
          (fun _ _ _ => some ((datesFromTo 0 2).map (fun d => (d, sunDefaultData))))
          ⟨none, none⟩ (some 0) (some 2)).1
        (some 1)) (some 1) (some 2) = true ∧
    checkDataAvailability
      (removeDataBeforeDate
        (fetchAndStoreDataForRange
          (fun _ _ _ => some ((datesFromTo 0 2).map (fun d => (d, sunDefaultData))))
          ⟨none, none⟩ (some 0) (some 2)).1
        (some 1)) (some 0) (some 1) = false :=
  prunedAvailabilitySplit 0 1 2 (by norm_num) (by norm_num)
    (fun _ _ _ => some ((datesFromTo 0 2).map (fun d => (d, sunDefaultData))))
    (fun _ _ => sunDefaultData) (fun p _ _ => rfl)

/-- C6.  When the table has no element record for a body on the calendar
day of the instant, the interpolator is absent and the per-frame target of
that body is the frame transform applied to the origin substitute. -/
theorem missingDataYieldsOriginSubstitute
    (p : DriverParams) (body : CelestialBodyConfig) (idx : ℕ) (t : ℝ)
    (h : ∀ row, p.planetDataByDate ⌊t / dayMs⌋ = some row → (row[idx]?).join = none) :
    calculateInterpolatedPosition p.planetDataByDate idx t = none ∧
    bodyTargetPos p t (earthOriginalPos p t) body idx =
      transformToGeocentricVisualization body.name ⟨0, 0, 0⟩ (earthOriginalPos p t) := by
  have hinterp : calculateInterpolatedPosition p.planetDataByDate idx t = none := by
    unfold calculateInterpolatedPosition
    cases htab : p.planetDataByDate ⌊t / dayMs⌋ with
    | none => simp [htab]
    | some row =>
      have hj := h row htab
      cases hri : row[idx]? with
      | none => simp [htab, hri]
      | some o =>
        cases o with
        | none => simp [htab, hri]
        | some dd =>
          rw [hri] at hj
          simp [Option.join] at hj
  refine ⟨hinterp, ?_⟩
  by_cases hidx : idx = earthIndex p
  · have hEarth : earthOriginalPos p t = ⟨0, 0, 0⟩ := by
      unfold earthOriginalPos
      rw [← hidx, hinterp]
      rfl
    simp only [bodyTargetPos, if_pos hidx, Option.getD_some, hEarth]
  · simp only [bodyTargetPos, if_neg hidx, hinterp]
    rfl

/-- C6 witness: empty table, instant zero, a single tracked body. -/
theorem missingDataYieldsOriginSubstituteWitness :
    calculateInterpolatedPosition
      (DriverParams.mk 0 86400000 10 (fun _ => none) [⟨marsName, marsName, 1⟩] true).planetDataByDate
      0 0 = none ∧
    bodyTargetPos
      (DriverParams.mk 0 86400000 10 (fun _ => none) [⟨marsName, marsName, 1⟩] true) 0
      (earthOriginalPos
        (DriverParams.mk 0 86400000 10 (fun _ => none) [⟨marsName, marsName, 1⟩] true) 0)
      ⟨marsName, marsName, 1⟩ 0 =
      transformToGeocentricVisualization marsName ⟨0, 0, 0⟩
        (earthOriginalPos
          (DriverParams.mk 0 86400000 10 (fun _ => none) [⟨marsName, marsName, 1⟩] true) 0) :=
  missingDataYieldsOriginSubstitute
    (DriverParams.mk 0 86400000 10 (fun _ => none) [⟨marsName, marsName, 1⟩] true)
    ⟨marsName, marsName, 1⟩ 0 0 (fun _ hrow => Option.noConfusion hrow)

/-- The completion branch of the frame handler: when the system is ready,
the span is positive, the session is running and the newly accumulated
mapped time reaches the span, the tick sets the exact end date on both date
fields, turns the running flag off and the complete flag on, and leaves
everything else, the displayed positions included, unchanged. -/
lemma animationTick_complete (p : DriverParams) (s : DriverState) (delta now : ℝ)
    (hready : p.readyToAnimate = true) (hspan : 0 < p.endMs - p.startMs)
    (hactive : s.isAnimationActive = true)
    (htrig : p.endMs - p.startMs ≤
      ((if s.hasStarted then s.accumulatedMs else 0) + min delta 0.1 * 1000) /
        (p.animationDuration * 1000) * (p.endMs - p.startMs)) :
    animationTick p delta now s =
      { s with hasStarted := true,
               accumulatedMs :=
                 (if s.hasStarted then s.accumulatedMs else 0) + min delta 0.1 * 1000,
               currentDate := p.endMs, currentDateRef := p.endMs,
               isAnimationActive := false, isAnimationComplete := true } := by
  unfold animationTick
  rw [if_neg (by
    rintro (h | h)
    · rw [hready] at h; exact absurd h (by simp)
    · linarith)]
  rw [if_pos hactive]
  dsimp only
  rw [min_eq_right htrig, if_pos (le_refl (p.endMs - p.startMs))]

/-- C3 counterexample.  It is not the case that reaching the end of the
calendar span makes the driver set the end date, stop, and snap every body
to its exact end-date target: in a concrete finishing tick the displayed
position of the single tracked body stays at its previous smoothed value
instead of moving to the end-date target. -/
theorem completionSnapClaimFalse :
    ¬ (∀ (p : DriverParams) (s : DriverState) (delta now : ℝ),
        p.readyToAnimate = true → 0 < p.endMs - p.startMs →
        s.isAnimationActive = true →
        p.endMs - p.startMs ≤
          ((if s.hasStarted then s.accumulatedMs else 0) + min delta 0.1 * 1000) /
            (p.animationDuration * 1000) * (p.endMs - p.startMs) →
        (animationTick p delta now s).currentDate = p.endMs ∧
        (animationTick p delta now s).isAnimationActive = false ∧
        (animationTick p delta now s).isAnimationComplete = true ∧
        ∀ ib ∈ p.celestialBodies.enum,
          (animationTick p delta now s).positions ib.2.name =
            some (endDateTargetPos p ib.2 ib.1)) := by
  intro hclaim
  obtain ⟨-, -, -, hsnap⟩ :=
    hclaim (DriverParams.mk 0 86400000 10 (fun _ => none) [⟨marsName, marsName, 1⟩] true)
      (DriverState.mk true 10000 0 0 0 0
        (fun n => if n = marsName then some ⟨1, 2, 3⟩ else none) (fun _ => none) true false)
      1 0 rfl (by norm_num) rfl (by norm_num [min_def])
  have hmem : ((0 : ℕ), (⟨marsName, marsName, 1⟩ : CelestialBodyConfig)) ∈
      ([(⟨marsName, marsName, 1⟩ : CelestialBodyConfig)]).enum :=
    List.mem_singleton.mpr rfl
  have hpos := hsnap (0, ⟨marsName, marsName, 1⟩) hmem
  rw [animationTick_complete _ _ _ _ rfl (by norm_num) rfl (by norm_num [min_def])] at hpos
  have hnone : ∀ i t, calculateInterpolatedPosition (fun _ => none) i t = none := by
    intro i t
    unfold calculateInterpolatedPosition
    simp
  have hend : endDateTargetPos
      (DriverParams.mk 0 86400000 10 (fun _ => none) [⟨marsName, marsName, 1⟩] true)
      ⟨marsName, marsName, 1⟩ 0 = ⟨0, 0, 0⟩ := by
    unfold endDateTargetPos bodyTargetPos earthOriginalPos
    rw [hnone, hnone]
    have hEidx : earthIndex
        (DriverParams.mk 0 86400000 10 (fun _ => none) [⟨marsName, marsName, 1⟩] true) = 1 := rfl
    rw [hEidx]
    rw [if_neg (by norm_num)]
    simp [transformToGeocentricVisualization, marsName]
  dsimp only at hpos
  rw [hend] at hpos
  simp at hpos

/-- C3 amended.  When the accumulated mapped time reaches or exceeds the
calendar span, the tick sets both date fields to the exact end date and the
session goes from running to complete, but the displayed positions are kept
exactly as they were; no end-date snap is computed. -/
theorem completionHoldsLastPositions (p : DriverParams) (s : DriverState) (delta now : ℝ)
    (hready : p.readyToAnimate = true) (hspan : 0 < p.endMs - p.startMs)
    (hactive : s.isAnimationActive = true)
    (htrig : p.endMs - p.startMs ≤
      ((if s.hasStarted then s.accumulatedMs else 0) + min delta 0.1 * 1000) /
        (p.animationDuration * 1000) * (p.endMs - p.startMs)) :
    (animationTick p delta now s).currentDate = p.endMs ∧
    (animationTick p delta now s).currentDateRef = p.endMs ∧
    (animationTick p delta now s).isAnimationActive = false ∧
    (animationTick p delta now s).isAnimationComplete = true ∧
    (animationTick p delta now s).positions = s.positions := by
  rw [animationTick_complete p s delta now hready hspan hactive htrig]
  exact ⟨rfl, rfl, rfl, rfl, rfl⟩

/-- C3 amended witness at a concrete finishing tick. -/
theorem completionHoldsLastPositionsWitness :
    (animationTick (DriverParams.mk 0 86400000 10 (fun _ => none)
        [⟨marsName, marsName, 1⟩] true) 1 0
      (DriverState.mk true 10000 0 0 0 0 (fun _ => none) (fun _ => none) true
        false)).currentDate = 86400000 ∧
    (animationTick (DriverParams.mk 0 86400000 10 (fun _ => none)
        [⟨marsName, marsName, 1⟩] true) 1 0
      (DriverState.mk true 10000 0 0 0 0 (fun _ => none) (fun _ => none) true
        false)).isAnimationActive = false := by
  obtain ⟨h1, -, h3, -, -⟩ :=
    completionHoldsLastPositions
      (DriverParams.mk 0 86400000 10 (fun _ => none) [⟨marsName, marsName, 1⟩] true)
      (DriverState.mk true 10000 0 0 0 0 (fun _ => none) (fun _ => none) true false)
      1 0 rfl (by norm_num) rfl (by norm_num [min_def])
  exact ⟨h1, h3⟩

/-- Base equation of the Kepler iterate sequence. -/
lemma keplerSeq_zero (e M : ℝ) : keplerSeq e M 0 = M := rfl

/-- Step equation of the Kepler iterate sequence. -/
lemma keplerSeq_succ (e M : ℝ) (k : ℕ) :
    keplerSeq e M (k + 1) = M + e * Real.sin (keplerSeq e M k) := rfl

/-- The sine function moves points by no more than their distance. -/
lemma abs_sin_sub_sin_le (a b : ℝ) : |Real.sin a - Real.sin b| ≤ |a - b| := by
  rw [Real.sin_sub_sin, abs_mul, abs_mul, abs_two]
  have h1 : |Real.sin ((a - b) / 2)| ≤ |(a - b) / 2| := Real.abs_sin_le_abs
  have h2 : |Real.cos ((a + b) / 2)| ≤ 1 := Real.abs_cos_le_one _
  rw [abs_div, abs_two] at h1
  nlinarith [abs_nonneg (Real.sin ((a - b) / 2)), abs_nonneg (a - b),
    abs_nonneg (Real.cos ((a + b) / 2))]

/-- Consecutive Kepler iterates are geometrically close: the k-th step moves
by at most the (k+1)-st power of the eccentricity. -/
lemma keplerSeq_diff_le (e M : ℝ) (he : 0 ≤ e) :
    ∀ k, |keplerSeq e M (k + 1) - keplerSeq e M k| ≤ e ^ (k + 1) := by
  intro k
  induction k with
  | zero =>
    have hz : keplerSeq e M 1 - keplerSeq e M 0 = e * Real.sin M := by
      rw [keplerSeq_succ, keplerSeq_zero]; ring
    rw [hz, abs_mul, abs_of_nonneg he, pow_one]
    have hs := Real.abs_sin_le_one M
    nlinarith
  | succ k ih =>
    have hstep : keplerSeq e M (k + 2) - keplerSeq e M (k + 1) =
        e * (Real.sin (keplerSeq e M (k + 1)) - Real.sin (keplerSeq e M k)) := by
      rw [keplerSeq_succ, keplerSeq_succ]; ring
    rw [hstep, abs_mul, abs_of_nonneg he]
    have h1 := abs_sin_sub_sin_le (keplerSeq e M (k + 1)) (keplerSeq e M k)
    calc e * |Real.sin (keplerSeq e M (k + 1)) - Real.sin (keplerSeq e M k)|
        ≤ e * e ^ (k + 1) := mul_le_mul_of_nonneg_left (h1.trans ih) he
      _ = e ^ (k + 2) := by ring

/-- C1 amended.  For eccentricities up to `1/4` the fixed-point iteration
does meet the `1e-6` tolerance within the 10-iteration budget, for every
mean anomaly in `[0, 2 pi)`. -/
theorem keplerConvergesForSmallEcc (e M : ℝ) (he0 : 0 ≤ e) (he1 : e ≤ 1 / 4)
    (_hM0 : 0 ≤ M) (_hM1 : M < 2 * Real.pi) :
    ∃ k, 1 ≤ k ∧ k ≤ 10 ∧ |keplerSeq e M k - keplerSeq e M (k - 1)| < 1e-6 := by
  refine ⟨10, by norm_num, le_refl 10, ?_⟩
  have h := keplerSeq_diff_le e M he0 9
  have h2 : e ^ 10 ≤ (1 / 4 : ℝ) ^ 10 := pow_le_pow_left₀ he0 he1 10
  have h3 : ((1 : ℝ) / 4) ^ 10 < 1e-6 := by norm_num
  show |keplerSeq e M 10 - keplerSeq e M 9| < 1e-6
  calc |keplerSeq e M 10 - keplerSeq e M 9| ≤ e ^ 10 := h
    _ ≤ (1 / 4 : ℝ) ^ 10 := h2
    _ < 1e-6 := h3

/-- C1 amended witness at zero eccentricity and zero mean anomaly. -/
theorem keplerConvergesForSmallEccWitness :
    ∃ k, 1 ≤ k ∧ k ≤ 10 ∧ |keplerSeq 0 0 k - keplerSeq 0 0 (k - 1)| < 1e-6 :=
  keplerConvergesForSmallEcc 0 0 (le_refl 0) (by norm_num) (le_refl 0) Real.two_pi_pos

/-- Start value of the slow-convergence distance sequence. -/
lemma keplerBadU_zero : keplerBadU 0 = 1 / 10 := by
  unfold keplerBadU keplerBadM
  rw [keplerSeq_zero]
  ring

/-- Recurrence of the slow-convergence distance sequence. -/
lemma keplerBadU_succ (k : ℕ) :
    keplerBadU (k + 1) = 1 / 10 - (9 / 10) * Real.sin (keplerBadU k) := by
  unfold keplerBadU
  rw [keplerSeq_succ]
  have hrw : keplerSeq (9 / 10) keplerBadM k = Real.pi - keplerBadU k := by
    unfold keplerBadU; ring
  rw [hrw, Real.sin_pi_sub]
  unfold keplerBadM
  ring_nf

/-- The slow-convergence distances stay inside `[0, 1/10]`. -/
lemma keplerBadU_mem : ∀ k, 0 ≤ keplerBadU k ∧ keplerBadU k ≤ 1 / 10 := by
  intro k
  induction k with
  | zero => rw [keplerBadU_zero]; norm_num
  | succ k ih =>
    obtain ⟨h0, h1⟩ := ih
    have hsin0 : 0 ≤ Real.sin (keplerBadU k) :=
      Real.sin_nonneg_of_nonneg_of_le_pi h0 (h1.trans (by linarith [Real.pi_gt_three]))
    have hsin1 : Real.sin (keplerBadU k) ≤ 1 / 10 := (Real.sin_le h0).trans h1
    rw [keplerBadU_succ]
    constructor <;> linarith

/-- Quantitative lower bound for the sine on `[0, 1/10]`. -/
lemma sin_lb_small {x : ℝ} (h0 : 0 ≤ x) (h1 : x ≤ 1 / 10) :
    (399 / 400) * x ≤ Real.sin x := by
  rcases eq_or_lt_of_le h0 with h | h
  · rw [← h]; simp
  · have hcube := Real.sin_gt_sub_cube h (by linarith)
    have hx2 : x ^ 2 ≤ 1 / 100 := by nlinarith
    nlinarith [mul_le_mul_of_nonneg_left hx2 h.le]

/-- Quantitative lower bound for the cosine on `[0, 1/10]`. -/
lemma cos_lb_small {x : ℝ} (h0 : 0 ≤ x) (h1 : x ≤ 1 / 10) :
    (199 / 200 : ℝ) ≤ Real.cos x := by
  have hq := @Real.one_sub_sq_div_two_le_cos x
  have hx2 : x ^ 2 ≤ 1 / 100 := by nlinarith
  linarith

/-- On `[0, 1/10]` the sine expands distances by a factor of at least
`8/9`. -/
lemma sin_diff_lb_small {a b : ℝ} (hb0 : 0 ≤ b) (hba : b ≤ a) (ha1 : a ≤ 1 / 10) :
    (8 / 9) * (a - b) ≤ Real.sin a - Real.sin b := by
  rw [Real.sin_sub_sin]
  have hd0 : 0 ≤ (a - b) / 2 := by linarith
  have hd1 : (a - b) / 2 ≤ 1 / 10 := by linarith
  have hs0 : 0 ≤ (a + b) / 2 := by linarith
  have hs1 : (a + b) / 2 ≤ 1 / 10 := by linarith
  have h1 := sin_lb_small hd0 hd1
  have h2 := cos_lb_small hs0 hs1
  have h3 : 0 ≤ Real.sin ((a - b) / 2) :=
    le_trans (mul_nonneg (by norm_num) hd0) h1
  have hp : (399 / 400) * ((a - b) / 2) * (199 / 200) ≤
      Real.sin ((a - b) / 2) * Real.cos ((a + b) / 2) :=
    mul_le_mul h1 h2 (by norm_num) h3
  linarith

/-- The slow-convergence steps shrink by a factor of at most `4/5` per
iteration, starting from at least `1/20`. -/
lemma keplerBadU_diff_lb : ∀ k, (1 / 20) * (4 / 5) ^ k ≤ |keplerBadU (k + 1) - keplerBadU k| := by
  intro k
  induction k with
  | zero =>
    rw [keplerBadU_succ, keplerBadU_zero]
    have h1 : (399 / 400) * (1 / 10 : ℝ) ≤ Real.sin (1 / 10) :=
      sin_lb_small (by norm_num) (le_refl _)
    rw [show (1 / 10 : ℝ) - 9 / 10 * Real.sin (1 / 10) - 1 / 10 =
      -(9 / 10 * Real.sin (1 / 10)) from by ring]
    rw [abs_neg, abs_of_nonneg (by nlinarith)]
    norm_num
    linarith
  | succ k ih =>
    have hrec : keplerBadU (k + 2) - keplerBadU (k + 1) =
        -((9 / 10) * (Real.sin (keplerBadU (k + 1)) - Real.sin (keplerBadU k))) := by
      rw [keplerBadU_succ, keplerBadU_succ]; ring
    rw [hrec, abs_neg, abs_mul, abs_of_nonneg (by norm_num : (0 : ℝ) ≤ 9 / 10)]
    obtain ⟨ha0, ha1⟩ := keplerBadU_mem (k + 1)
    obtain ⟨hb0, hb1⟩ := keplerBadU_mem k
    have habs : (8 / 9) * |keplerBadU (k + 1) - keplerBadU k| ≤
        |Real.sin (keplerBadU (k + 1)) - Real.sin (keplerBadU k)| := by
      rcases le_total (keplerBadU k) (keplerBadU (k + 1)) with hle | hle
      · have hlb := sin_diff_lb_small hb0 hle ha1
        rw [abs_of_nonneg (sub_nonneg.mpr hle),
          abs_of_nonneg (by linarith [sub_nonneg.mpr hle])]
        exact hlb
      · have hlb := sin_diff_lb_small ha0 hle hb1
        rw [abs_sub_comm (keplerBadU (k + 1)),
          abs_sub_comm (Real.sin (keplerBadU (k + 1))),
          abs_of_nonneg (sub_nonneg.mpr hle),
          abs_of_nonneg (by linarith [sub_nonneg.mpr hle])]
        exact hlb
    calc (1 / 20) * (4 / 5 : ℝ) ^ (k + 1) = (4 / 5) * ((1 / 20) * (4 / 5) ^ k) := by ring
      _ ≤ (4 / 5) * |keplerBadU (k + 1) - keplerBadU k| :=
          mul_le_mul_of_nonneg_left ih (by norm_num)
      _ ≤ (9 / 10) * |Real.sin (keplerBadU (k + 1)) - Real.sin (keplerBadU k)| := by
          nlinarith [habs, abs_nonneg (keplerBadU (k + 1) - keplerBadU k)]

/-- The same lower bound transported to the Kepler iterates themselves. -/
lemma keplerSeq_bad_diff_lb (k : ℕ) :
    (1 / 20) * (4 / 5) ^ k ≤
      |keplerSeq (9 / 10) keplerBadM (k + 1) - keplerSeq (9 / 10) keplerBadM k| := by
  have h := keplerBadU_diff_lb k
  have hrw : keplerBadU (k + 1) - keplerBadU k =
      -(keplerSeq (9 / 10) keplerBadM (k + 1) - keplerSeq (9 / 10) keplerBadM k) := by
    unfold keplerBadU; ring
  rw [hrw, abs_neg] at h
  exact h

/-- The solver loop runs to the end of its budget as long as every step
exceeds the tolerance, and then returns the corresponding iterate. -/
lemma keplerLoop_run (e M : ℝ) :
    ∀ (n k : ℕ) (prev : ℝ), 1e-6 < |keplerSeq e M k - prev| →
      (∀ j, k ≤ j → j + 1 ≤ k + n → 1e-6 < |keplerSeq e M (j + 1) - keplerSeq e M j|) →
      keplerLoop e M n (keplerSeq e M k) prev = keplerSeq e M (k + n) := by
  intro n
  induction n with
  | zero => intro k prev _ _; rfl
  | succ n ih =>
    intro k prev h1 h2
    rw [show keplerLoop e M (n + 1) (keplerSeq e M k) prev =
        keplerLoop e M n (M + e * Real.sin (keplerSeq e M k)) (keplerSeq e M k) from by
      rw [keplerLoop, if_pos h1]]
    rw [show M + e * Real.sin (keplerSeq e M k) = keplerSeq e M (k + 1) from
      (keplerSeq_succ e M k).symm]
    have h1n : 1e-6 < |keplerSeq e M (k + 1) - keplerSeq e M k| :=
      h2 k (le_refl k) (by omega)
    have h2n : ∀ j, k + 1 ≤ j → j + 1 ≤ (k + 1) + n →
        1e-6 < |keplerSeq e M (j + 1) - keplerSeq e M j| :=
      fun j hj1 hj2 => h2 j (by omega) (by omega)
    rw [ih (k + 1) (keplerSeq e M k) h1n h2n]
    congr 1
    omega

/-- C1 counterexample.  The claimed universal convergence within 10
iterations fails on the real-number idealization of the solver: at
eccentricity `9/10` and mean anomaly `pi - 1/10` every one of the first ten
steps moves by more than the tolerance, so no step meets `1e-6`; moreover
the solver loop exhausts all ten iterations there and silently returns the
tenth iterate. -/
theorem keplerTenIterationClaimFalse :
    (¬ ∀ e M : ℝ, 0 ≤ e → e ≤ 9 / 10 → 0 ≤ M → M < 2 * Real.pi →
      ∃ k, 1 ≤ k ∧ k ≤ 10 ∧ |keplerSeq e M k - keplerSeq e M (k - 1)| < 1e-6) ∧
    keplerSolveE (9 / 10) keplerBadM = keplerSeq (9 / 10) keplerBadM 10 := by
  have hlow : ∀ k, 1 ≤ k → k ≤ 10 →
      1e-6 < |keplerSeq (9 / 10) keplerBadM k - keplerSeq (9 / 10) keplerBadM (k - 1)| := by
    intro k hk1 hk10
    obtain ⟨j, rfl⟩ : ∃ j, k = j + 1 := ⟨k - 1, by omega⟩
    have h := keplerSeq_bad_diff_lb j
    have hj9 : j ≤ 9 := by omega
    have hpow : ((4 : ℝ) / 5) ^ 9 ≤ (4 / 5) ^ j :=
      pow_le_pow_of_le_one (by norm_num) (by norm_num) hj9
    have hsmall : (1e-6 : ℝ) < (1 / 20) * (4 / 5) ^ j := by nlinarith
    simpa using lt_of_lt_of_le hsmall h
  constructor
  · intro hclaim
    obtain ⟨k, hk1, hk10, hsm⟩ := hclaim (9 / 10) keplerBadM (by norm_num) (le_refl _)
      (by unfold keplerBadM; linarith [Real.pi_gt_three])
      (by unfold keplerBadM; linarith [Real.pi_pos])
    exact absurd hsm (not_lt.mpr (le_of_lt (hlow k hk1 hk10)))
  · unfold keplerSolveE
    have h1 : 1e-6 < |keplerSeq (9 / 10) keplerBadM 0 - (keplerBadM - 1)| := by
      rw [keplerSeq_zero, show keplerBadM - (keplerBadM - 1) = (1 : ℝ) from by ring]
      norm_num
    have h2 : ∀ j, 0 ≤ j → j + 1 ≤ 0 + 10 →
        1e-6 < |keplerSeq (9 / 10) keplerBadM (j + 1) - keplerSeq (9 / 10) keplerBadM j| := by
      intro j _ hj
      simpa using hlow (j + 1) (by omega) (by omega)
    simpa using keplerLoop_run (9 / 10) keplerBadM 10 0 (keplerBadM - 1) h1 h2
